import Mathlib

/-!
Verification of the nutrition-tracking calculation core.

The Python source keeps nutrient vectors and goal tables as `dict`s.  We
embed a Python `dict` as an association list `List (α × β)` together with
`dictGet` (Python `d.get(k)` / `d[k]`, first binding wins) and `dictSet`
(Python `d[k] = v`: replace the existing binding in place, otherwise append
at the end), which matches Python's insertion-ordered dictionaries.

Numbers are embedded as `Rat` (the source arithmetic on floats, read
exactly); calendar dates are embedded as integers (one per day, with
`isoformat` the identity on day numbers), so `date.today()` becomes an
explicit `today : Int` parameter and `timedelta(days = n)` is `+ n`.
Python's `ZeroDivisionError` is embedded with `Except`.
-/

namespace NutriCal

/-- Python `d.get(k)` on a dict embedded as an association list. -/
def dictGet {α β : Type} [DecidableEq α] (k : α) : List (α × β) → Option β
  | [] => none
  | (k', v) :: t => if k' = k then some v else dictGet k t

/-- Python `d[k] = v`: replace the existing binding in place, else append. -/
def dictSet {α β : Type} [DecidableEq α] (k : α) (v : β) : List (α × β) → List (α × β)
  | [] => [(k, v)]
  | (k', v') :: t => if k' = k then (k', v) :: t else (k', v') :: dictSet k v t

theorem dictGet_dictSet_self {α β : Type} [DecidableEq α] (k : α) (v : β)
    (m : List (α × β)) : dictGet k (dictSet k v m) = some v := by
  induction m with
  | nil => simp [dictGet, dictSet]
  | cons p t ih =>
    obtain ⟨k', v'⟩ := p
    by_cases h : k' = k
    · simp [dictGet, dictSet, h]
    · simp [dictGet, dictSet, h, ih]

theorem dictGet_dictSet_ne {α β : Type} [DecidableEq α] {k k' : α} (h : k' ≠ k)
    (v : β) (m : List (α × β)) : dictGet k' (dictSet k v m) = dictGet k' m := by
  induction m with
  | nil => simp [dictGet, dictSet, Ne.symm h]
  | cons p t ih =>
    obtain ⟨k₀, v₀⟩ := p
    by_cases h₀ : k₀ = k
    · subst h₀
      simp [dictGet, dictSet, Ne.symm h]
    · simp [dictGet, dictSet, h₀, ih]

theorem dictGet_dictSet_isSome {α β : Type} [DecidableEq α] {k' : α} (k : α) (v : β)
    {m : List (α × β)} (h : (dictGet k' m).isSome) :
    (dictGet k' (dictSet k v m)).isSome := by
  by_cases hk : k' = k
  · subst hk; rw [dictGet_dictSet_self]; rfl
  · rwa [dictGet_dictSet_ne hk]

/-- Looking up in a value-mapped dict maps the lookup result. -/
theorem dictGet_map_values {α β γ : Type} [DecidableEq α] (k : α) (f : β → γ)
    (m : List (α × β)) :
    dictGet k (m.map (fun p => (p.1, f p.2))) = (dictGet k m).map f := by
  induction m with
  | nil => rfl
  | cons p t ih =>
    by_cases h : p.1 = k
    · simp [dictGet, h]
    · simp [dictGet, h, ih]

/-- Python `s.lower()`: lowercase every character (the profile vocabulary
here is ASCII, where `Char.toLower` agrees with Python). -/
def pyLower (s : String) : String := ⟨s.data.map Char.toLower⟩

/-! ## `NutritionCalculator` (src/utils/nutrition_calculator.py) -/

/-- Static daily reference values for nutrients (adult recommendations),
in the source's insertion order. -/
def daily_values : List (String × Rat) :=
  [("calories", 2000), ("protein", 50), ("fat", 65), ("carbohydrates", 300),
   ("fiber", 25), ("sugar", 50),
   ("vitamin_a", 900), ("vitamin_c", 90), ("vitamin_d", 20), ("vitamin_e", 15),
   ("vitamin_k", 120), ("vitamin_b1", 1.2), ("vitamin_b2", 1.3), ("vitamin_b3", 16),
   ("vitamin_b5", 5), ("vitamin_b6", 1.3), ("vitamin_b12", 2.4), ("folate", 400),
   ("calcium", 1000), ("iron", 8), ("magnesium", 400), ("phosphorus", 700),
   ("potassium", 3500), ("sodium", 2300), ("zinc", 11), ("copper", 0.9),
   ("manganese", 2.3), ("selenium", 55),
   ("cholesterol", 300), ("saturated_fat", 20)]

/-- `calculate_bmr`: Mifflin-St Jeor; the source tests `gender.lower() == 'male'`. -/
def calculate_bmr (weight_kg height_cm : Rat) (age : Int) (gender : String) : Rat :=
  if pyLower gender = "male" then
    10 * weight_kg + 6.25 * height_cm - 5 * (age : Rat) + 5
  else
    10 * weight_kg + 6.25 * height_cm - 5 * (age : Rat) - 161

/-- `calculate_daily_goals`: calorie adjustment by goal, 15/30/55 macro split,
then gender- and age-conditional overrides on a copy of `daily_values`. -/
def calculate_daily_goals (tdee : Rat) (goal : String) (gender : String) (age : Int) :
    List (String × Rat) :=
  let calories : Rat :=
    if goal = "lose" then tdee - 500
    else if goal = "gain" then tdee + 500
    else tdee
  let protein_grams := (calories * 0.15) / 4
  let fat_grams := (calories * 0.30) / 9
  let carb_grams := (calories * 0.55) / 4
  let goals := dictSet "carbohydrates" carb_grams
    (dictSet "fat" fat_grams
      (dictSet "protein" protein_grams
        (dictSet "calories" calories daily_values)))
  let goals :=
    if pyLower gender = "female" then
      dictSet "folate" 400 (dictSet "iron" (if age < 51 then 18 else 8) goals)
    else goals
  let goals :=
    if age > 70 then
      dictSet "calcium" 1200 (dictSet "vitamin_d" 20 goals)
    else goals
  goals

/-- `calculate_nutrient_percentage`: goal of 0 yields 0, otherwise the
percentage capped at 200. -/
def calculate_nutrient_percentage (consumed goal : Rat) : Rat :=
  if goal = 0 then 0
  else min ((consumed / goal) * 100) 200

/-- Python exceptions raised by the embedded code. -/
inductive PyError : Type
  | zeroDivisionError
deriving DecidableEq

/-- `scale_nutrients_by_portion`: multiply every value by
`portion_grams / reference_portion`; Python raises `ZeroDivisionError` when
the reference portion is zero. -/
def scale_nutrients_by_portion (nutrients : List (String × Rat))
    (portion_grams : Rat) (reference_portion : Rat := 100) :
    Except PyError (List (String × Rat)) :=
  if reference_portion = 0 then .error .zeroDivisionError
  else
    let scaling_factor := portion_grams / reference_portion
    .ok (nutrients.map (fun p => (p.1, p.2 * scaling_factor)))

/-- `get_nutrient_status`: status label and color for a percentage. -/
def get_nutrient_status (percentage : Rat) : String × String :=
  if percentage < 25 then ("Very Low", "🔴")
  else if percentage < 50 then ("Low", "🟠")
  else if percentage < 75 then ("Moderate", "🟡")
  else if percentage < 100 then ("Good", "🟢")
  else if percentage < 150 then ("Excellent", "💚")
  else ("High", "🔵")

/-! ## `USDAFoodAPI` (src/utils/usda_api.py) -/

/-- One catalog-reported nutrient record: `{"amount": ..., "unit": ...}`. -/
structure NutrientData : Type where
  amount : Rat
  unitName : String
deriving DecidableEq

/-- `get_nutrient_mapping`: static table from USDA nutrient names to
standardized internal names. -/
def get_nutrient_mapping : List (String × String) :=
  [("Energy", "calories"),
   ("Protein", "protein"),
   ("Total lipid (fat)", "fat"),
   ("Carbohydrate, by difference", "carbohydrates"),
   ("Fiber, total dietary", "fiber"),
   ("Sugars, total including NLEA", "sugar"),
   ("Sodium, Na", "sodium"),
   ("Calcium, Ca", "calcium"),
   ("Iron, Fe", "iron"),
   ("Magnesium, Mg", "magnesium"),
   ("Phosphorus, P", "phosphorus"),
   ("Potassium, K", "potassium"),
   ("Zinc, Zn", "zinc"),
   ("Copper, Cu", "copper"),
   ("Manganese, Mn", "manganese"),
   ("Selenium, Se", "selenium"),
   ("Vitamin C, total ascorbic acid", "vitamin_c"),
   ("Thiamin", "vitamin_b1"),
   ("Riboflavin", "vitamin_b2"),
   ("Niacin", "vitamin_b3"),
   ("Pantothenic acid", "vitamin_b5"),
   ("Vitamin B-6", "vitamin_b6"),
   ("Folate, total", "folate"),
   ("Vitamin B-12", "vitamin_b12"),
   ("Vitamin A, RAE", "vitamin_a"),
   ("Vitamin E (alpha-tocopherol)", "vitamin_e"),
   ("Vitamin D (D2 + D3)", "vitamin_d"),
   ("Vitamin K (phylloquinone)", "vitamin_k"),
   ("Cholesterol", "cholesterol"),
   ("Fatty acids, total saturated", "saturated_fat"),
   ("Fatty acids, total monounsaturated", "monounsaturated_fat"),
   ("Fatty acids, total polyunsaturated", "polyunsaturated_fat")]

/-- `normalize_nutrients`: for each catalog entry whose name is in the
mapping, assign its amount under the standardized name; unmapped names are
skipped. -/
def normalize_nutrients (nutrients : List (String × NutrientData)) :
    List (String × Rat) :=
  nutrients.foldl
    (fun normalized p =>
      match dictGet p.1 get_nutrient_mapping with
      | some standard_name => dictSet standard_name p.2.amount normalized
      | none => normalized)
    []

/-! ## `DataStorage` (src/utils/data_storage.py) -/

/-- A diary food entry; only its nutrient vector matters to the summary. -/
structure FoodEntry : Type where
  nutrients : List (String × Rat)
deriving DecidableEq

/-- `st.session_state.daily_entries`: date (day number) to list of entries. -/
abbrev Diary := List (Int × List FoodEntry)

/-- `get_daily_entries`: entries for a date, defaulting to the empty list. -/
def get_daily_entries (diary : Diary) (d : Int) : List FoodEntry :=
  (dictGet d diary).getD []

/-- `get_daily_totals`: sum each nutrient over all entries of the date,
via `totals.get(nutrient, 0) + amount`. -/
def get_daily_totals (diary : Diary) (d : Int) : List (String × Rat) :=
  (get_daily_entries diary d).foldl
    (fun totals e =>
      e.nutrients.foldl
        (fun t p => dictSet p.1 ((dictGet p.1 t).getD 0 + p.2) t) totals)
    []

/-- The pre-averaging summary state: `total_days`, the per-nutrient lists of
daily amounts, and `dates_tracked`. -/
abbrev SummaryAcc := Nat × List (String × List Rat) × List Int

/-- Record one nutrient amount of a day into the per-nutrient lists:
`summary['avg_nutrients'][nutrient].append(amount)`, creating the empty
list first when the nutrient is new. -/
def day_append (av : List (String × List Rat)) (p : String × Rat) :
    List (String × List Rat) :=
  dictSet p.1 ((dictGet p.1 av).getD [] ++ [p.2]) av

/-- One loop iteration of `get_nutrition_summary`: skip the date when its
daily totals are empty (Python dict falsiness), otherwise count the day,
append each nutrient's amount to its list, and record the date. -/
def summary_step (diary : Diary) (s : SummaryAcc) (d : Int) : SummaryAcc :=
  let daily_totals := get_daily_totals diary d
  if daily_totals.isEmpty then s
  else
    (s.1 + 1, daily_totals.foldl day_append s.2.1, s.2.2 ++ [d])

/-- The dates scanned by `get_nutrition_summary`: from
`today - (days - 1)` up to `today` inclusive. -/
def summary_window (today : Int) (days : Nat) : List Int :=
  (List.range days).map (fun i => today - ((days : Int) - 1) + (i : Int))

/-- The returned summary record. -/
structure Summary : Type where
  total_days : Nat
  avg_nutrients : List (String × Rat)
  dates_tracked : List Int
deriving DecidableEq

/-- `get_nutrition_summary`: scan the window, then replace each nutrient's
collected list by its average `sum(values) / len(values)`. -/
def get_nutrition_summary (diary : Diary) (today : Int) (days : Nat := 7) :
    Summary :=
  let collected := (summary_window today days).foldl (summary_step diary) (0, [], [])
  { total_days := collected.1
    avg_nutrients :=
      collected.2.1.map (fun p => (p.1, p.2.sum / ((p.2.length : Nat) : Rat)))
    dates_tracked := collected.2.2 }

/-! ## Claim C5: BMR branches -/

/-- Claim C5 counterexample: the claim says any gender string other than
exactly `"male"` takes the female branch, but the source lowercases first:
`calculate_bmr 70 170 30 "MALE"` returns the male value `1617.5`, not the
female value `10·70 + 6.25·170 − 5·30 − 161 = 1451.5`. -/
theorem calculate_bmr_counterexample :
    calculate_bmr 70 170 30 "MALE" = 1617.5 ∧
    10 * (70 : Rat) + 6.25 * 170 - 5 * 30 - 161 = 1451.5 ∧
    (1617.5 : Rat) ≠ 1451.5 := by
  have hg : pyLower "MALE" = "male" := by decide
  refine ⟨?_, by norm_num, by norm_num⟩
  unfold calculate_bmr
  rw [hg, if_pos rfl]
  norm_num

/-- Claim C5 (amended): `calculate_bmr` has exactly two branches, selected
case-insensitively: when `gender.lower() = "male"` it returns
`10·w + 6.25·h − 5·age + 5`, and for every other string it returns
`10·w + 6.25·h − 5·age − 161`. -/
theorem calculate_bmr_two_branches (w h : Rat) (a : Int) (g : String) :
    calculate_bmr w h a g =
      if pyLower g = "male" then 10 * w + 6.25 * h - 5 * (a : Rat) + 5
      else 10 * w + 6.25 * h - 5 * (a : Rat) - 161 := rfl

/-! ## Claim C6: percentage of goal -/

/-- Claim C6: `calculate_nutrient_percentage` returns 0 when the goal is 0,
is monotonic non-decreasing in the consumed amount for any fixed positive
goal, and is always at most 200. -/
theorem calculate_nutrient_percentage_props (c c₁ c₂ g : Rat) :
    calculate_nutrient_percentage c 0 = 0 ∧
    (0 < g → c₁ ≤ c₂ →
      calculate_nutrient_percentage c₁ g ≤ calculate_nutrient_percentage c₂ g) ∧
    calculate_nutrient_percentage c g ≤ 200 := by
  refine ⟨rfl, ?_, ?_⟩
  · intro hg hc
    simp only [calculate_nutrient_percentage, if_neg hg.ne']
    have hdiv : c₁ / g ≤ c₂ / g := by gcongr
    exact min_le_min (by nlinarith) le_rfl
  · unfold calculate_nutrient_percentage
    split
    · norm_num
    · exact min_le_right _ _

/-- Concrete instance of C6 at `c = 7`, `c₁ = 1`, `c₂ = 3`, `g = 2`. -/
theorem calculate_nutrient_percentage_props_witness :
    calculate_nutrient_percentage 7 0 = 0 ∧
    calculate_nutrient_percentage 1 2 ≤ calculate_nutrient_percentage 3 2 ∧
    calculate_nutrient_percentage 7 2 ≤ 200 := by
  obtain ⟨h1, h2, h3⟩ := calculate_nutrient_percentage_props 7 1 3 2
  exact ⟨h1, h2 (by norm_num) (by norm_num), h3⟩

/-! ## Claim C7: status buckets -/

/-- Claim C7: the status classification is total and maps each half-open
percentage band to its unique bucket: `[0,25) ↦ "Very Low"` (and any value
below 25), `[25,50) ↦ "Low"`, `[50,75) ↦ "Moderate"`, `[75,100) ↦ "Good"`,
`[100,150) ↦ "Excellent"`, `[150,∞) ↦ "High"`. -/
theorem get_nutrient_status_buckets (p : Rat) :
    (p < 25 → (get_nutrient_status p).1 = "Very Low") ∧
    (25 ≤ p → p < 50 → (get_nutrient_status p).1 = "Low") ∧
    (50 ≤ p → p < 75 → (get_nutrient_status p).1 = "Moderate") ∧
    (75 ≤ p → p < 100 → (get_nutrient_status p).1 = "Good") ∧
    (100 ≤ p → p < 150 → (get_nutrient_status p).1 = "Excellent") ∧
    (150 ≤ p → (get_nutrient_status p).1 = "High") := by
  refine ⟨fun h1 => ?_, fun h1 h2 => ?_, fun h1 h2 => ?_, fun h1 h2 => ?_,
    fun h1 h2 => ?_, fun h1 => ?_⟩ <;> simp only [get_nutrient_status]
  · rw [if_pos h1]
  · rw [if_neg (by linarith), if_pos h2]
  · rw [if_neg (by linarith), if_neg (by linarith), if_pos h2]
  · rw [if_neg (by linarith), if_neg (by linarith), if_neg (by linarith),
      if_pos h2]
  · rw [if_neg (by linarith), if_neg (by linarith), if_neg (by linarith),
      if_neg (by linarith), if_pos h2]
  · rw [if_neg (by linarith), if_neg (by linarith), if_neg (by linarith),
      if_neg (by linarith), if_neg (by linarith)]

/-- Concrete instances of C7, one per bucket. -/
theorem get_nutrient_status_buckets_witness :
    (get_nutrient_status 0).1 = "Very Low" ∧
    (get_nutrient_status 30).1 = "Low" ∧
    (get_nutrient_status 60).1 = "Moderate" ∧
    (get_nutrient_status 80).1 = "Good" ∧
    (get_nutrient_status 120).1 = "Excellent" ∧
    (get_nutrient_status 150).1 = "High" :=
  ⟨(get_nutrient_status_buckets 0).1 (by norm_num),
   (get_nutrient_status_buckets 30).2.1 (by norm_num) (by norm_num),
   (get_nutrient_status_buckets 60).2.2.1 (by norm_num) (by norm_num),
   (get_nutrient_status_buckets 80).2.2.2.1 (by norm_num) (by norm_num),
   (get_nutrient_status_buckets 120).2.2.2.2.1 (by norm_num) (by norm_num),
   (get_nutrient_status_buckets 150).2.2.2.2.2 (by norm_num)⟩

/-! ## Claims C2 and C10: totality of goal derivation -/

/-- Helper: every key present in `daily_values` is still present in the
result of `calculate_daily_goals`, for arbitrary inputs. -/
theorem dictGet_goals_isSome (t : Rat) (goal gd : String) (a : Int) (k : String)
    (h : (dictGet k daily_values).isSome = true) :
    (dictGet k (calculate_daily_goals t goal gd a)).isSome = true := by
  simp only [calculate_daily_goals]
  split <;> split <;>
    repeat first | apply dictGet_dictSet_isSome | exact h

/-- Claim C2 counterexample: the claim says the goal-derivation operations
fail with `InvalidProfile` on non-positive weight or age, but the source has
no validation: `calculate_bmr` with weight −1 returns the formula value
`907.5`, and `calculate_daily_goals` with age −5 returns a goal mapping
(its `"calories"` key is present). -/
theorem goal_validation_counterexample :
    calculate_bmr (-1) 170 30 "male" = 907.5 ∧
    (dictGet "calories" (calculate_daily_goals 2000 "maintain" "male" (-5))).isSome
      = true := by
  constructor
  · unfold calculate_bmr
    rw [if_pos (by decide : pyLower "male" = "male")]
    norm_num
  · decide

/-- Claim C2 (amended): neither operation validates the profile; for every
input — including non-positive weight, height or age — `calculate_bmr`
returns the Mifflin-St Jeor value of its branch and `calculate_daily_goals`
returns a goal mapping (no `InvalidProfile` error exists in the code). -/
theorem goal_ops_no_validation (w h : Rat) (a : Int) (g gd goal : String) (t : Rat)
    (hinv : w ≤ 0 ∨ h ≤ 0 ∨ a ≤ 0) :
    (calculate_bmr w h a g =
      if pyLower g = "male" then 10 * w + 6.25 * h - 5 * (a : Rat) + 5
      else 10 * w + 6.25 * h - 5 * (a : Rat) - 161) ∧
    (dictGet "calories" (calculate_daily_goals t goal gd a)).isSome = true :=
  ⟨rfl, dictGet_goals_isSome t goal gd a "calories" (by decide)⟩

/-- Concrete instance of C2 (amended) at weight −1. -/
theorem goal_ops_no_validation_witness :
    (calculate_bmr (-1) 170 30 "male" =
      if pyLower "male" = "male"
      then 10 * (-1 : Rat) + 6.25 * 170 - 5 * ((30 : Int) : Rat) + 5
      else 10 * (-1 : Rat) + 6.25 * 170 - 5 * ((30 : Int) : Rat) - 161) ∧
    (dictGet "calories" (calculate_daily_goals 2000 "maintain" "male" 30)).isSome
      = true :=
  goal_ops_no_validation (-1) 170 30 "male" "male" "maintain" 2000
    (Or.inl (by norm_num))

/-- Claim C10: for every input, the goal mapping contains a value for every
nutrient key of the static `daily_values` table — the calorie/macro updates
and the gender/age overrides only overwrite, never remove. -/
theorem calculate_daily_goals_keys_complete (t : Rat) (goal gd : String) (a : Int)
    (k : String) (h : (dictGet k daily_values).isSome = true) :
    (dictGet k (calculate_daily_goals t goal gd a)).isSome = true :=
  dictGet_goals_isSome t goal gd a k h

/-- Concrete instance of C10 at key `"selenium"`. -/
theorem calculate_daily_goals_keys_complete_witness :
    (dictGet "selenium" daily_values).isSome = true ∧
    (dictGet "selenium" (calculate_daily_goals 2000 "lose" "female" 75)).isSome
      = true :=
  ⟨by decide,
   calculate_daily_goals_keys_complete 2000 "lose" "female" 75 "selenium" (by decide)⟩

/-! ## Claims C3 and C8: portion scaling -/

/-- Claim C3 counterexample: the claim says scaling fails with
`InvalidPortion` whenever the consumed portion is ≤ 0, but the source has no
validation: scaling `\x7b"calories": 100\x7d` by portion −5 over reference 100
silently returns the scaled vector `\x7b"calories": -5\x7d`. -/
theorem scale_nutrients_counterexample :
    scale_nutrients_by_portion [("calories", 100)] (-5) 100 =
      .ok [("calories", -5)] := by
  simp only [scale_nutrients_by_portion]
  rw [if_neg (by norm_num : ¬((100 : Rat) = 0))]
  norm_num

/-- Claim C3 (amended): `scale_nutrients_by_portion` performs no portion
validation: for any reference ≠ 0 (including non-positive portions) it
returns the vector scaled by `portion / reference`, and for reference = 0 it
raises Python's `ZeroDivisionError` (so it never silently returns 0 or
infinity there, but no `InvalidPortion` error exists). -/
theorem scale_nutrients_no_validation (v : List (String × Rat)) (p r : Rat) :
    (r = 0 → scale_nutrients_by_portion v p r = .error .zeroDivisionError) ∧
    (r ≠ 0 → scale_nutrients_by_portion v p r =
      .ok (v.map (fun q => (q.1, q.2 * (p / r))))) := by
  constructor
  · intro h
    simp [scale_nutrients_by_portion, h]
  · intro h
    simp [scale_nutrients_by_portion, h]

/-- Concrete instances of C3 (amended): reference 0 errors, portion −5 with
reference 2 returns the scaled vector. -/
theorem scale_nutrients_no_validation_witness :
    scale_nutrients_by_portion [("calories", 100)] 5 0 = .error .zeroDivisionError ∧
    scale_nutrients_by_portion [("calories", 100)] (-5) 2 =
      .ok [("calories", -250)] := by
  constructor
  · exact (scale_nutrients_no_validation [("calories", 100)] 5 0).1 rfl
  · rw [(scale_nutrients_no_validation [("calories", 100)] (-5) 2).2 (by norm_num)]
    norm_num

/-- Claim C8: scaling with reference equal to the (positive) portion is the
identity, and scaling by portion `p` over reference `r` followed by scaling
the result by a further factor `k` (portion `k` over reference 1) equals
scaling directly by `p·k` over `r` — exactly, over rational arithmetic. -/
theorem scale_nutrients_identity_mult (v : List (String × Rat)) (p k r : Rat) :
    (0 < p → scale_nutrients_by_portion v p p = .ok v) ∧
    (r ≠ 0 → ∀ w, scale_nutrients_by_portion v p r = .ok w →
      scale_nutrients_by_portion w k 1 =
        scale_nutrients_by_portion v (p * k) r) := by
  constructor
  · intro hp
    simp only [scale_nutrients_by_portion, if_neg hp.ne']
    have hfun : (fun q : String × Rat => (q.1, q.2 * (p / p))) = fun q => q := by
      funext q
      rw [div_self hp.ne', mul_one]
    rw [hfun, List.map_id']
  · intro hr w hw
    simp only [scale_nutrients_by_portion, if_neg hr, Except.ok.injEq] at hw
    simp only [scale_nutrients_by_portion, if_neg hr,
      if_neg (one_ne_zero : ¬((1 : Rat) = 0)), ← hw, List.map_map,
      Except.ok.injEq]
    have hfun : ((fun q : String × Rat => (q.1, q.2 * (k / 1))) ∘
        fun q : String × Rat => (q.1, q.2 * (p / r))) =
        fun q : String × Rat => (q.1, q.2 * (p * k / r)) := by
      funext q
      simp only [Function.comp_apply, div_one]
      rw [mul_assoc, div_mul_eq_mul_div]
    rw [hfun]

/-- Concrete instances of C8 at portion 2, factor 3, reference 4. -/
theorem scale_nutrients_identity_mult_witness :
    scale_nutrients_by_portion [("calories", (100 : Rat))] 2 2 =
      .ok [("calories", 100)] ∧
    scale_nutrients_by_portion [("calories", (50 : Rat))] 3 1 =
      scale_nutrients_by_portion [("calories", (100 : Rat))] (2 * 3) 4 := by
  have h := scale_nutrients_identity_mult [("calories", (100 : Rat))] 2 3 4
  refine ⟨h.1 (by norm_num), h.2 (by norm_num) [("calories", 50)] ?_⟩
  simp only [scale_nutrients_by_portion]
  rw [if_neg (by norm_num : ¬((4 : Rat) = 0))]
  norm_num

/-! ## Claim C4: macro split consistency -/

/-- Claim C4: for every TDEE, goal string, gender and age, the derived goals
satisfy `protein·4 + fat·9 + carbohydrates·4 = calories` exactly over
rational arithmetic (the 15%/30%/55% split sums to 100%). -/
theorem macro_split_consistent (tdee : Rat) (goal gender : String) (age : Int) :
    (dictGet "protein" (calculate_daily_goals tdee goal gender age)).getD 0 * 4 +
      (dictGet "fat" (calculate_daily_goals tdee goal gender age)).getD 0 * 9 +
      (dictGet "carbohydrates" (calculate_daily_goals tdee goal gender age)).getD 0 * 4
      = (dictGet "calories" (calculate_daily_goals tdee goal gender age)).getD 0 := by
  by_cases hf : pyLower gender = "female" <;> by_cases ha : age > 70 <;>
    simp [calculate_daily_goals, hf, ha, dictGet_dictSet_ne, dictGet_dictSet_self] <;>
    split_ifs <;> ring

/-! ## Claim C9: catalog normalization is exactly the mapped entries -/

/-- The claim's description of normalization: exactly the entries whose
catalog name appears in the static table, renamed to the internal
identifier and carrying the catalog-reported amount, in catalog order;
unmapped names are dropped. -/
def normalize_nutrients_spec (nutrients : List (String × NutrientData)) :
    List (String × Rat) :=
  nutrients.filterMap
    (fun p => (dictGet p.1 get_nutrient_mapping).map (fun s => (s, p.2.amount)))

theorem dictGet_eq_some_mem {α β : Type} [DecidableEq α] {m : List (α × β)}
    {k : α} {v : β} (h : dictGet k m = some v) : (k, v) ∈ m := by
  induction m with
  | nil => exact absurd h (by simp [dictGet])
  | cons q t ih =>
    obtain ⟨k₀, v₀⟩ := q
    by_cases h₀ : k₀ = k
    · subst h₀
      rw [dictGet, if_pos rfl] at h
      exact (Option.some_inj.mp h) ▸ List.mem_cons_self _ _
    · rw [dictGet, if_neg h₀] at h
      exact List.mem_cons_of_mem _ (ih h)

/-- The internal names in the static table are pairwise distinct. -/
theorem mapping_snd_nodup : (get_nutrient_mapping.map Prod.snd).Nodup := by decide

/-- The static table maps distinct catalog names to distinct internal names,
so no two catalog entries collide after renaming. -/
theorem mapping_inj {a b c : String}
    (ha : dictGet a get_nutrient_mapping = some c)
    (hb : dictGet b get_nutrient_mapping = some c) : a = b := by
  have h := List.inj_on_of_nodup_map mapping_snd_nodup
    (dictGet_eq_some_mem ha) (dictGet_eq_some_mem hb) rfl
  exact congrArg Prod.fst h

theorem dictSet_of_get_none {α β : Type} [DecidableEq α] {m : List (α × β)}
    {k : α} (v : β) (h : dictGet k m = none) : dictSet k v m = m ++ [(k, v)] := by
  induction m with
  | nil => rfl
  | cons q t ih =>
    obtain ⟨k₀, v₀⟩ := q
    by_cases h₀ : k₀ = k
    · rw [dictGet, if_pos h₀] at h
      exact absurd h (by simp)
    · rw [dictGet, if_neg h₀] at h
      rw [dictSet, if_neg h₀, ih h, List.cons_append]

theorem dictGet_append_of_none {α β : Type} [DecidableEq α] {k : α}
    {m₁ : List (α × β)} (m₂ : List (α × β)) (h : dictGet k m₁ = none) :
    dictGet k (m₁ ++ m₂) = dictGet k m₂ := by
  induction m₁ with
  | nil => rfl
  | cons q t ih =>
    obtain ⟨k₀, v₀⟩ := q
    by_cases h₀ : k₀ = k
    · rw [dictGet, if_pos h₀] at h
      exact absurd h (by simp)
    · rw [dictGet, if_neg h₀] at h
      rw [List.cons_append, dictGet, if_neg h₀, ih h]

/-- The `normalize_nutrients` fold, run from any accumulator disjoint from
the renamed keys of the remaining input, appends exactly the mapped
entries. -/
theorem normalize_go (ns : List (String × NutrientData))
    (acc : List (String × Rat)) (hnd : (ns.map Prod.fst).Nodup)
    (hdisj : ∀ p ∈ ns, ∀ s, dictGet p.1 get_nutrient_mapping = some s →
      dictGet s acc = none) :
    ns.foldl
      (fun normalized p =>
        match dictGet p.1 get_nutrient_mapping with
        | some standard_name => dictSet standard_name p.2.amount normalized
        | none => normalized) acc
    = acc ++ normalize_nutrients_spec ns := by
  induction ns generalizing acc with
  | nil => simp [normalize_nutrients_spec]
  | cons q t ih =>
    rw [List.map_cons, List.nodup_cons] at hnd
    obtain ⟨hq, hndt⟩ := hnd
    rw [List.foldl_cons]
    cases hm : dictGet q.1 get_nutrient_mapping with
    | none =>
      simp only [hm]
      rw [ih acc hndt (fun p hp s hs => hdisj p (List.mem_cons_of_mem _ hp) s hs)]
      simp [normalize_nutrients_spec, List.filterMap_cons, hm]
    | some s =>
      simp only [hm]
      have hs : dictGet s acc = none := hdisj q (List.mem_cons_self _ _) s hm
      rw [dictSet_of_get_none _ hs]
      have hdisj' : ∀ p ∈ t, ∀ s', dictGet p.1 get_nutrient_mapping = some s' →
          dictGet s' (acc ++ [(s, q.2.amount)]) = none := by
        intro p hp s' hs'
        have h₁ : dictGet s' acc = none :=
          hdisj p (List.mem_cons_of_mem _ hp) s' hs'
        have hne : ¬(s = s') := by
          intro he
          subst he
          exact hq (mapping_inj hm hs' ▸ List.mem_map_of_mem Prod.fst hp)
        rw [dictGet_append_of_none _ h₁, dictGet, if_neg hne]
        rfl
      rw [ih (acc ++ [(s, q.2.amount)]) hndt hdisj']
      simp [normalize_nutrients_spec, List.filterMap_cons, hm]

/-- Claim C9: on any catalog nutrient dict (distinct catalog names),
`normalize_nutrients` returns exactly the entries whose catalog name appears
in the static table, renamed and carrying the catalog amount; unmapped
names are dropped silently. -/
theorem normalize_nutrients_exact (ns : List (String × NutrientData))
    (hnd : (ns.map Prod.fst).Nodup) :
    normalize_nutrients ns = normalize_nutrients_spec ns := by
  have h := normalize_go ns [] hnd (fun p _ s _ => rfl)
  simpa [normalize_nutrients] using h

/-- The spec's example: `\x7b"Energy": 200 kcal, "Unknown Nutrient X": 5\x7d`
normalizes to `\x7b"calories": 200\x7d`. -/
theorem normalize_nutrients_exact_witness :
    (([("Energy", ({ amount := 200, unitName := "kcal" } : NutrientData)),
        ("Unknown Nutrient X", { amount := 5, unitName := "" })].map
        Prod.fst).Nodup) ∧
    normalize_nutrients
      [("Energy", { amount := 200, unitName := "kcal" }),
       ("Unknown Nutrient X", { amount := 5, unitName := "" })]
      = [("calories", 200)] := by
  constructor
  · decide
  · rw [normalize_nutrients_exact _ (by decide)]
    rfl

/-! ## Claim C1: multi-day summary semantics -/

/-- The claim-side description of the collected amounts for one nutrient:
one amount per day of the window whose daily totals contain that
nutrient. -/
def nutrient_day_amounts (diary : Diary) (w : List Int) (n : String) : List Rat :=
  w.filterMap (fun d => dictGet n (get_daily_totals diary d))

/-- Append newly collected daily amounts to a nutrient's optional collected
list (`none` = nutrient not seen yet, never mapped to an empty list). -/
def combineAmounts (o : Option (List Rat)) (xs : List Rat) : Option (List Rat) :=
  match o with
  | some l => some (l ++ xs)
  | none => if xs.isEmpty then none else some xs

theorem combineAmounts_nil (o : Option (List Rat)) : combineAmounts o [] = o := by
  cases o <;> simp [combineAmounts]

theorem combineAmounts_assoc (o : Option (List Rat)) (xs ys : List Rat) :
    combineAmounts (combineAmounts o xs) ys = combineAmounts o (xs ++ ys) := by
  cases o with
  | some l => simp [combineAmounts]
  | none =>
    cases xs with
    | nil => simp [combineAmounts]
    | cons x t => simp [combineAmounts]

theorem dictGet_eq_none_of_not_mem {α β : Type} [DecidableEq α]
    {m : List (α × β)} {k : α} (h : k ∉ m.map Prod.fst) : dictGet k m = none := by
  induction m with
  | nil => rfl
  | cons q t ih =>
    rw [List.map_cons, List.mem_cons, not_or] at h
    rw [dictGet, if_neg (fun he => h.1 he.symm)]
    exact ih h.2

theorem mem_keys_dictSet {α β : Type} [DecidableEq α] {x k : α} (v : β)
    {m : List (α × β)} (h : x ∈ (dictSet k v m).map Prod.fst) :
    x ∈ m.map Prod.fst ∨ x = k := by
  induction m with
  | nil => simpa [dictSet] using h
  | cons q t ih =>
    obtain ⟨k₀, v₀⟩ := q
    by_cases h₀ : k₀ = k
    · rw [dictSet, if_pos h₀] at h
      simp only [List.map_cons, List.mem_cons] at h ⊢
      tauto
    · rw [dictSet, if_neg h₀] at h
      simp only [List.map_cons, List.mem_cons] at h ⊢
      rcases h with h | h
      · exact Or.inl (Or.inl h)
      · rcases ih h with h' | h'
        · exact Or.inl (Or.inr h')
        · exact Or.inr h'

theorem dictSet_keys_nodup {α β : Type} [DecidableEq α] (k : α) (v : β)
    {m : List (α × β)} (h : (m.map Prod.fst).Nodup) :
    ((dictSet k v m).map Prod.fst).Nodup := by
  induction m with
  | nil => simp [dictSet]
  | cons q t ih =>
    obtain ⟨k₀, v₀⟩ := q
    rw [List.map_cons, List.nodup_cons] at h
    by_cases h₀ : k₀ = k
    · rw [dictSet, if_pos h₀, List.map_cons, List.nodup_cons]
      exact h
    · rw [dictSet, if_neg h₀, List.map_cons, List.nodup_cons]
      refine ⟨fun hm => ?_, ih h.2⟩
      rcases mem_keys_dictSet v hm with h' | h'
      · exact h.1 h'
      · exact h₀ h'

/-- A property preserved by every fold step holds for the fold. -/
theorem foldl_preserve {α σ : Type} (P : σ → Prop) (f : σ → α → σ)
    (h : ∀ s x, P s → P (f s x)) :
    ∀ (l : List α) (s : σ), P s → P (l.foldl f s)
  | [], _, hs => hs
  | x :: t, s, hs => foldl_preserve P f h t (f s x) (h s x hs)

/-- Daily totals carry each nutrient key at most once. -/
theorem get_daily_totals_keys_nodup (diary : Diary) (d : Int) :
    ((get_daily_totals diary d).map Prod.fst).Nodup := by
  unfold get_daily_totals
  apply foldl_preserve (fun t : List (String × Rat) => (t.map Prod.fst).Nodup)
  · intro s e hs
    apply foldl_preserve (fun t : List (String × Rat) => (t.map Prod.fst).Nodup)
    · intro s' p hs'
      exact dictSet_keys_nodup _ _ hs'
    · exact hs
  · simp

theorem day_append_get (av : List (String × List Rat)) (p : String × Rat)
    (n : String) :
    dictGet n (day_append av p) =
      if p.1 = n then some ((dictGet n av).getD [] ++ [p.2])
      else dictGet n av := by
  unfold day_append
  by_cases h : p.1 = n
  · subst h
    rw [if_pos rfl, dictGet_dictSet_self]
  · rw [if_neg h, dictGet_dictSet_ne (fun he => h he.symm)]

/-- Folding one day's totals into the per-nutrient lists appends exactly
that day's amount of each nutrient present in the totals. -/
theorem day_fold_get (totals : List (String × Rat))
    (hnd : (totals.map Prod.fst).Nodup) (av : List (String × List Rat))
    (n : String) :
    dictGet n (totals.foldl day_append av) =
      combineAmounts (dictGet n av) ((dictGet n totals).elim [] (fun a => [a])) := by
  induction totals generalizing av with
  | nil => simp [combineAmounts_nil, dictGet]
  | cons q t ih =>
    obtain ⟨m, a⟩ := q
    rw [List.map_cons, List.nodup_cons] at hnd
    rw [List.foldl_cons]
    rw [ih hnd.2 (day_append av (m, a))]
    rw [day_append_get]
    by_cases hmn : m = n
    · subst hmn
      rw [if_pos rfl, dictGet, if_pos rfl]
      rw [dictGet_eq_none_of_not_mem hnd.1]
      cases hget : dictGet m av <;>
        simp [combineAmounts, hget]
    · rw [if_neg hmn, dictGet, if_neg hmn]

theorem nutrient_day_amounts_cons (diary : Diary) (d : Int) (t : List Int)
    (n : String) :
    nutrient_day_amounts diary (d :: t) n =
      ((dictGet n (get_daily_totals diary d)).elim [] fun a => [a]) ++
        nutrient_day_amounts diary t n := by
  cases hq : dictGet n (get_daily_totals diary d) <;>
    simp [nutrient_day_amounts, List.filterMap_cons, hq]

/-- The scan over a window of dates: `total_days` counts the days with
non-empty totals, and each nutrient's list collects exactly that
nutrient's per-day amounts. -/
theorem summary_fold_spec (diary : Diary) (w : List Int) (td : Nat)
    (av : List (String × List Rat)) (dt : List Int) :
    (w.foldl (summary_step diary) (td, av, dt)).1 =
      td + (w.filter (fun d => !(get_daily_totals diary d).isEmpty)).length ∧
    ∀ n, dictGet n (w.foldl (summary_step diary) (td, av, dt)).2.1 =
      combineAmounts (dictGet n av) (nutrient_day_amounts diary w n) := by
  induction w generalizing td av dt with
  | nil => simp [nutrient_day_amounts, combineAmounts_nil]
  | cons d t ih =>
    rw [List.foldl_cons]
    by_cases he : (get_daily_totals diary d).isEmpty
    · rw [summary_step, if_pos he]
      constructor
      · rw [(ih td av dt).1, List.filter_cons]
        simp [he]
      · intro n
        rw [(ih td av dt).2 n]
        have hnone : dictGet n (get_daily_totals diary d) = none := by
          cases hq : get_daily_totals diary d with
          | nil => rfl
          | cons x xs => rw [hq] at he; simp at he
        rw [nutrient_day_amounts_cons, hnone]
        rfl
    · rw [summary_step, if_neg he]
      constructor
      · rw [(ih (td + 1) ((get_daily_totals diary d).foldl day_append av)
          (dt ++ [d])).1, List.filter_cons]
        simp only [he]
        simp only [Bool.not_false, if_pos, List.length_cons]
        omega
      · intro n
        rw [(ih (td + 1) ((get_daily_totals diary d).foldl day_append av)
          (dt ++ [d])).2 n]
        rw [day_fold_get _ (get_daily_totals_keys_nodup diary d) av n]
        rw [combineAmounts_assoc, nutrient_day_amounts_cons]

/-- A diary with two tracked days in the current week: today has one entry
with only calories (100), yesterday has one entry with only protein (5). -/
def summaryDiaryA : Diary :=
  [(0, [⟨[("calories", 100)]⟩]), (-1, [⟨[("protein", 5)]⟩])]

/-- Claim C1 counterexample: two of the seven window days have entries, so
the claim says the average calories is taken over both days
(`(100 + 0) / 2 = 50`), but the summary reports `100`: the denominator for
each nutrient is the number of days on which that nutrient appears, not the
number of days with entries. -/
theorem nutrition_summary_counterexample :
    (get_nutrition_summary summaryDiaryA 0 7).total_days = 2 ∧
    dictGet "calories" (get_nutrition_summary summaryDiaryA 0 7).avg_nutrients
      = some 100 ∧
    (100 : Rat) ≠ (100 + 0) / 2 := by
  refine ⟨?_, ?_, by norm_num⟩
  · norm_num [get_nutrition_summary, summary_window, summary_step, List.range_succ,
      get_daily_totals, get_daily_entries, day_append, dictGet, dictSet,
      summaryDiaryA]
  · norm_num [get_nutrition_summary, summary_window, summary_step, List.range_succ,
      get_daily_totals, get_daily_entries, day_append, dictGet, dictSet,
      summaryDiaryA]
    simp

/-- Claim C1 (amended): for every diary and window, `total_days` is the
number of window days whose daily totals are non-empty, and for each
nutrient the reported average is the sum of that nutrient's amounts over
the window days on which it appears, divided by the number of those days —
days lacking the nutrient (even days with entries) are excluded from that
nutrient's denominator, and a nutrient appearing on no day is absent. -/
theorem nutrition_summary_characterization (diary : Diary) (today : Int)
    (days : Nat) :
    (get_nutrition_summary diary today days).total_days =
      ((summary_window today days).filter
        (fun d => !(get_daily_totals diary d).isEmpty)).length ∧
    ∀ n, dictGet n (get_nutrition_summary diary today days).avg_nutrients =
      if (nutrient_day_amounts diary (summary_window today days) n).isEmpty
      then none
      else some
        ((nutrient_day_amounts diary (summary_window today days) n).sum /
          ((nutrient_day_amounts diary (summary_window today days) n).length : Rat)) := by
  have h := summary_fold_spec diary (summary_window today days) 0 [] []
  constructor
  · show ((summary_window today days).foldl (summary_step diary) (0, [], [])).1 = _
    rw [h.1, Nat.zero_add]
  · intro n
    show dictGet n
        ((((summary_window today days).foldl (summary_step diary) (0, [], [])).2.1).map
          (fun p => (p.1, p.2.sum / ((p.2.length : Nat) : Rat)))) = _
    rw [dictGet_map_values n (fun l : List Rat => l.sum / ((l.length : Nat) : Rat)),
      h.2 n]
    generalize nutrient_day_amounts diary (summary_window today days) n = vs
    cases vs <;> simp [combineAmounts, dictGet]

end NutriCal
